import Mathlib

/-!
Verification development for the `ipstream` MJPEG camera streaming server
(`src/Main.py`).  The Python source is shallowly embedded below: the device
prober (`get_camera_info`, `list_video_sources`), the streaming request
handler (`VideoStreamHandler.do_GET`), and the startup / shutdown flow of
`main` are translated to pure Lean functions over explicit environment
parameters (device behaviour, console input, how `serve_forever` ends).
Side effects are recorded as explicit action traces.
-/

namespace IpStream

/-- The `CameraInfo` record produced by `get_camera_info` (Main.py:34-49):
`{'id': ..., 'name': ..., 'resolution': ..., 'backend': ...}`. -/
structure CameraInfo where
  id : Nat
  name : String
  resolution : String
  backend : String
deriving DecidableEq, Repr

/-- Environment model of one camera device index, as observed through the
OpenCV calls in `get_camera_info` (Main.py:8-25): whether
`cap.isOpened()` is true, the reported width/height, the backend name,
whether the single `cap.read()` succeeds, and the best-effort OS-level
(Windows WMI) human-readable name when one is found (Main.py:28-41). -/
structure Device where
  opens : Bool
  width : Nat
  height : Nat
  backend : String
  readOk : Bool
  osName : Option String
deriving DecidableEq, Repr

/-- Resource actions performed by one probe: the `cv2.VideoCapture`
constructor call (an open attempt) and `cap.release()`. -/
inductive ProbeAction
  | openDev
  | releaseDev
deriving DecidableEq, Repr

/-- Shallow embedding of `get_camera_info(source_id)` (Main.py:8-49),
returning the result together with the trace of resource actions.
Mirrors the source paths exactly:
* line 9: `cap = cv2.VideoCapture(source_id)` — the open attempt;
* lines 10-11: `if not cap.isOpened(): return None` — note no `release`
  on this path;
* lines 14-18: width/height/backend captured;
* lines 21-22: one `cap.read()`, then `cap.release()` (release precedes
  the `ret` check);
* lines 24-25: `if not ret: return None`;
* lines 28-41: best-effort OS name lookup, falling back to
  `f"Camera {source_id}"` (lines 44-49). -/
def get_camera_info (d : Device) (source_id : Nat) :
    Option CameraInfo × List ProbeAction :=
  if !d.opens then
    (none, [ProbeAction.openDev])
  else
    let backend := d.backend
    if !d.readOk then
      (none, [ProbeAction.openDev, ProbeAction.releaseDev])
    else
      let name :=
        match d.osName with
        | some n => n
        | none => s!"Camera {source_id}"
      (some { id := source_id, name := name,
              resolution := s!"{d.width}x{d.height}", backend := backend },
       [ProbeAction.openDev, ProbeAction.releaseDev])

/-- Shallow embedding of `list_video_sources()` (Main.py:212-218): probes
indices `0..9` in ascending order, appending each non-`None` result. -/
def list_video_sources (devs : Nat → Device) : List CameraInfo :=
  (List.range 10).filterMap (fun i => (get_camera_info (devs i) i).1)

/-! ### Streaming handler (`VideoStreamHandler.do_GET`, Main.py:51-210) -/

/-- A decoded frame polled from the capture handle.  Its pixel content is
irrelevant to the handler, which only hands it to the JPEG encoder, so a
frame is modelled as an abstract tag. -/
def Frame := Nat
deriving DecidableEq, Repr

/-- Bytes on the wire, one `Nat` per octet. -/
def Bytes := List Nat
deriving DecidableEq, Repr, Append

/-- A string of ASCII text, as the octets Python's latin-1 `encode`
produces for it. -/
def asciiBytes (s : String) : Bytes := s.toList.map Char.toNat

/-- `BaseHTTPRequestHandler.send_header(keyword, value)`: buffers the
octets of `"keyword: value\r\n"`. -/
def send_header (keyword value : String) : Bytes :=
  asciiBytes (keyword ++ ": " ++ value ++ "\x0d\x0a")

/-- `BaseHTTPRequestHandler.end_headers()`: buffers a bare `"\r\n"` and
flushes the buffer to the socket. -/
def end_headers : Bytes := asciiBytes "\x0d\x0a"

/-- Bytes one iteration of the `/stream` loop writes for an obtained frame
(Main.py:199-207), given the JPEG encoder `enc` (modelling
`cv2.imencode('.jpg', frame, [IMWRITE_JPEG_QUALITY, q])`, whose output
array of shape `(n,1)` has `len` equal to its byte count `n`):
`wfile.write(b'--frame\r\n')`, two `send_header` calls
(`Content-type: image/jpeg` and `Content-length: len(jpeg)`),
`end_headers()`, `wfile.write(jpeg.tobytes())`, `wfile.write(b'\r\n')`.
The quality parameter passed to the encoder is the literal `95` of
Main.py:199. -/
def streamIterBytes (enc : Frame → Nat → Bytes) (frame : Frame) : Bytes :=
  let jpeg : Bytes := enc frame 95
  asciiBytes "--frame\x0d\x0a"
  ++ send_header "Content-type" "image/jpeg"
  ++ send_header "Content-length" (toString (List.length jpeg))
  ++ end_headers
  ++ jpeg
  ++ asciiBytes "\x0d\x0a"

/-- Multipart segment layout as the specification words it
(spec.md §6): `--frame\r\n`, `Content-type: image/jpeg\r\n`,
`Content-length: <n>\r\n`, `\r\n`, the `n` raw JPEG bytes, `\r\n`, with
`n` the exact byte length of the JPEG payload.  Stated from the spec, to
be compared with `streamIterBytes`, which is stated from the source. -/
def specSegmentBytes (jpeg : Bytes) : Bytes :=
  asciiBytes "--frame\x0d\x0a"
  ++ asciiBytes "Content-type: image/jpeg\x0d\x0a"
  ++ asciiBytes ("Content-length: " ++ toString (List.length jpeg) ++ "\x0d\x0a")
  ++ asciiBytes "\x0d\x0a"
  ++ jpeg
  ++ asciiBytes "\x0d\x0a"

/-- Outcome of one iteration of the `while True` streaming loop
(Main.py:194-207). -/
inductive IterResult
  | continueRetry
  | wroteSegment (bytes : Bytes)
  | connectionClosed
deriving DecidableEq, Repr

/-- One iteration of the `/stream` loop (Main.py:194-207).  `poll` is the
result of `self.server.video_source.read()`: `none` when `ret` is false
(line 196-197 `continue`s straight back to the next poll), `some frame`
otherwise.  `writeOk` is whether the socket writes of this iteration
succeed; a raised write error leaves the `while True` via the `except`
clause (Main.py:208-210), ending this viewer's loop. -/
def streamIter (enc : Frame → Nat → Bytes) (poll : Option Frame)
    (writeOk : Bool) : IterResult :=
  match poll with
  | none => IterResult.continueRetry
  | some frame =>
      if writeOk then IterResult.wroteSegment (streamIterBytes enc frame)
      else IterResult.connectionClosed

/-- The loop run over a finite prefix of poll results (all writes
succeeding): concatenation of the segments of the obtained frames.
Running out of the list means the loop is still running — nothing in
Main.py:194-207 ever exits the `while True` on a poll result. -/
def streamOutput (enc : Frame → Nat → Bytes) : List (Option Frame) → Bytes
  | [] => ([] : List Nat)
  | none :: ps => streamOutput enc ps
  | some f :: ps => streamIterBytes enc f ++ streamOutput enc ps

/-- Response-level actions of `do_GET` (status line, top-level headers,
body bytes), used to model route dispatch (Main.py:52-210). -/
inductive HttpAction
  | sendResponse (code : Nat)
  | sendHeaderTop (keyword value : String)
  | endHeadersTop
  | writeBody
deriving DecidableEq, Repr

/-- Route dispatch of `VideoStreamHandler.do_GET` (Main.py:52-210):
`self.path == '/'` serves the HTML page (lines 53-187),
`self.path == '/stream'` serves the multipart stream (lines 188-210),
and any other path falls through the `if`/`elif` with no `else`: the
method returns having sent nothing. -/
def do_GET (path : String) : List HttpAction :=
  if path = "/" then
    [HttpAction.sendResponse 200,
     HttpAction.sendHeaderTop "Content-type" "text/html",
     HttpAction.endHeadersTop,
     HttpAction.writeBody]
  else if path = "/stream" then
    [HttpAction.sendResponse 200,
     HttpAction.sendHeaderTop "Content-type"
       "multipart/x-mixed-replace; boundary=frame",
     HttpAction.endHeadersTop,
     HttpAction.writeBody]
  else
    []

/-! ### Startup / shutdown flow (`main`, Main.py:230-269) -/

/-- How `server.serve_forever()` (Main.py:264) ends: a `KeyboardInterrupt`
(caught at line 265), some other raised exception (not caught; the
`finally` still runs before it propagates), or a plain return. -/
inductive ServeEnd
  | interrupted
  | raisedOther
  | returned
deriving DecidableEq, Repr

/-- Observable actions of `main`, in program order. -/
inductive MainAction
  | printMsg (s : String)
  | printMenu
  | promptSelect
  | openCapture (id : Nat)
  | setResolution (w h : Nat)
  | bindListener (port : Nat)
  | serveForever
  | releaseCapture
  | closeListener
deriving DecidableEq, Repr

/-- How the `main` call ends: a normal return, or an uncaught exception
propagating out (a crash). -/
inductive MainResult
  | returnedNormally
  | crashed
deriving DecidableEq, Repr

/-- One run of `main`: its action trace, the selected source (set exactly
when startup gets past the selection step), and how the call ended. -/
structure MainRun where
  trace : List MainAction
  selected : Option CameraInfo
  result : MainResult
deriving DecidableEq, Repr

/-- Python list subscripting `xs[i]` with an `int` index: indices
`0 ≤ i < len` count from the front, `-len ≤ i < 0` from the back, and
anything else raises `IndexError` (modelled as `none`). -/
def pythonGet {α : Type} (xs : List α) (i : Int) : Option α :=
  if 0 ≤ i then xs.get? i.toNat
  else if -(xs.length : Int) ≤ i then xs.get? ((xs.length : Int) + i).toNat
  else none

/-- Result of `main`'s suffix from line 247 on, once `selected_source` is
known: print the choice, open the capture handle on the selected id and
set its resolution to 1920x1080 (lines 252-254), bind the listener on
port 8000 (lines 250, 256), serve, and in the `finally` block release the
capture and close the listener (lines 263-269) — run on every way
`serve_forever` ends. -/
def serveTrace (s : CameraInfo) : List MainAction :=
  [MainAction.printMsg ("Using: " ++ s.name),
   MainAction.openCapture s.id,
   MainAction.setResolution 1920 1080,
   MainAction.bindListener 8000,
   MainAction.serveForever,
   MainAction.releaseCapture,
   MainAction.closeListener]

/-- Whether `main` returns normally for a given `serve_forever` ending:
`KeyboardInterrupt` is caught (line 265-266) and a plain return is
normal; any other exception propagates after the `finally`. -/
def resultOf : ServeEnd → MainResult
  | ServeEnd.interrupted => MainResult.returnedNormally
  | ServeEnd.returned => MainResult.returnedNormally
  | ServeEnd.raisedOther => MainResult.crashed

/-- Shallow embedding of `main()` (Main.py:230-269).  Environment:
`devs` describes each probed device index, `userInput` the selection
console read — `none` when `int(input(...))` raises `ValueError`
(non-numeric input), `some i` the parsed integer — and `serveEnd` how
`serve_forever` ends.  Paths mirrored from the source:
* lines 231-235: enumerate; if empty, print and return;
* lines 237-239: print the numbered menu;
* lines 241-243: if more than one source, prompt and read an integer, and
  index `sources[selected_idx]` with Python subscript semantics — a
  `ValueError` or `IndexError` here is uncaught and crashes startup;
* line 245: otherwise `sources[0]` is used with no prompt;
* lines 247-269: the serving suffix, `serveTrace`. -/
def mainTrace (devs : Nat → Device) (userInput : Option Int)
    (serveEnd : ServeEnd) : MainRun :=
  let sources := list_video_sources devs
  if sources.isEmpty then
    { trace := [MainAction.printMsg "No video sources found!"],
      selected := none,
      result := MainResult.returnedNormally }
  else
    let menu := [MainAction.printMenu]
    if sources.length > 1 then
      match userInput with
      | none =>
          { trace := menu ++ [MainAction.promptSelect],
            selected := none,
            result := MainResult.crashed }
      | some i =>
          match pythonGet sources i with
          | none =>
              { trace := menu ++ [MainAction.promptSelect],
                selected := none,
                result := MainResult.crashed }
          | some s =>
              { trace := menu ++ [MainAction.promptSelect] ++ serveTrace s,
                selected := some s,
                result := resultOf serveEnd }
    else
      match pythonGet sources 0 with
      | none =>
          { trace := menu, selected := none, result := MainResult.crashed }
      | some s =>
          { trace := menu ++ serveTrace s,
            selected := some s,
            result := resultOf serveEnd }

/-- The two relevant `http.server` server classes: the plain sequential
`HTTPServer` and `ThreadingHTTPServer` (`ThreadingMixIn`), which spawns
one thread per accepted connection. -/
inductive ServerClass
  | httpServer
  | threadingHttpServer
deriving DecidableEq, Repr

/-- Whether a server class gives each accepted connection its own
execution context: plain `HTTPServer` processes each connection to
completion inside the accept loop (sequentially, on the one listener
thread); `ThreadingHTTPServer` handles each in a fresh thread. -/
def handlesConnectionsConcurrently : ServerClass → Bool
  | ServerClass.httpServer => false
  | ServerClass.threadingHttpServer => true

/-- The server class `main` instantiates (Main.py:256):
`server = HTTPServer((local_ip, port), VideoStreamHandler)`. -/
def mainServerClass : ServerClass := ServerClass.httpServer

/-- `true` when the action is neither a listener bind nor a capture open:
used to state that a trace starts no server. -/
def notServerAction : MainAction → Bool
  | MainAction.bindListener _ => false
  | MainAction.openCapture _ => false
  | _ => true

/-! ### Concrete device environments, for evaluation -/

/-- A device index with no camera behind it: the open fails. -/
def closedDevice : Device :=
  { opens := false, width := 0, height := 0, backend := "", readOk := false,
    osName := none }

/-- A working camera: open and one-frame read both succeed. -/
def workingDevice : Device :=
  { opens := true, width := 640, height := 480, backend := "V4L2",
    readOk := true, osName := none }

/-- Environment with exactly one working camera, at index 0. -/
def devsOne : Nat → Device := fun i => if i = 0 then workingDevice else closedDevice

/-- Environment with exactly two working cameras, at indices 0 and 1. -/
def devsTwo : Nat → Device := fun i => if i < 2 then workingDevice else closedDevice

/-- Environment with no working camera at any index. -/
def devsNone : Nat → Device := fun _ => closedDevice

/-! ### Theorems -/

/-- The `id` field of a successful probe result is the probed index
(Main.py:35, 45). -/
theorem get_camera_info_id {d : Device} {i : Nat} {c : CameraInfo}
    (h : (get_camera_info d i).1 = some c) : c.id = i := by
  by_cases hd : d.opens
  · by_cases hr : d.readOk
    · simp [get_camera_info, hd, hr] at h
      subst h
      rfl
    · simp [get_camera_info, hd, hr] at h
  · simp [get_camera_info, hd] at h

/-- C1: for every connection to the stream route, each iteration of the
streaming loop that obtains a frame writes exactly one multipart segment
of the form: the boundary marker `--frame` followed by CRLF, a
`Content-type: image/jpeg` header, a `Content-length` header whose value
equals the exact byte length of the JPEG encoding of that frame, a blank
line, the raw JPEG bytes (encoded at JPEG quality level 95), then a
trailing CRLF.  The code-side iteration (`streamIter`, translated from
Main.py:194-207) produces exactly one `wroteSegment`, whose bytes equal
the spec-side layout `specSegmentBytes` applied to the quality-95
encoding of the frame. -/
theorem C1_stream_segment_format (enc : Frame → Nat → Bytes) (f : Frame) :
    streamIter enc (some f) true
      = IterResult.wroteSegment (specSegmentBytes (enc f 95)) := by
  simp only [streamIter, if_pos, streamIterBytes, specSegmentBytes,
    send_header, end_headers]
  rfl

/-- C3: whenever the frame poll reports no frame available, the streaming
loop retries the poll without delay and without terminating — the
iteration on an empty poll is `continueRetry` (never an error, never the
end of the loop) whatever the write environment, and a run of the loop on
a poll sequence beginning with an empty poll produces exactly the output
of the run on the rest of the sequence. -/
theorem C3_empty_poll_is_transient (enc : Frame → Nat → Bytes)
    (writeOk : Bool) (ps : List (Option Frame)) :
    streamIter enc none writeOk = IterResult.continueRetry
    ∧ streamOutput enc (none :: ps) = streamOutput enc ps :=
  ⟨rfl, rfl⟩

/-- C9: the claim says each accepted connection is handled concurrently in
its own execution context.  The code instantiates the plain sequential
`HTTPServer` (Main.py:256), which handles each accepted connection to
completion inside the single accept loop — so a viewer holding `/stream`
open blocks every other connection.  This theorem records the divergence
by evaluating the embedded server-class choice. -/
theorem C9_connections_handled_sequentially :
    handlesConnectionsConcurrently mainServerClass = false := rfl

/-- C10: for every GET request whose path is neither `/` nor `/stream`,
the request handler returns without sending any response at all — no
status line, no headers, no body (the `if`/`elif` of Main.py:53-210 has
no `else` branch). -/
theorem C10_unknown_path_sends_nothing (p : String)
    (h1 : p ≠ "/") (h2 : p ≠ "/stream") : do_GET p = [] := by
  simp [do_GET, h1, h2]

/-- Witness for C10 at the concrete path `/favicon.ico`. -/
theorem C10_witness :
    "/favicon.ico" ≠ "/" ∧ "/favicon.ico" ≠ "/stream"
    ∧ do_GET "/favicon.ico" = [] :=
  ⟨by decide, by decide,
   C10_unknown_path_sends_nothing "/favicon.ico" (by decide) (by decide)⟩

/-- C2: for every device index, `probe(i)` returns a `CameraInfo` exactly
when both opening the device and reading one frame succeed, and otherwise
returns absent; `enumerate` probes indices 0..9 inclusive in ascending
order and returns exactly the successful results in probe order (ids
strictly ascending), so its result length never exceeds 10. -/
theorem C2_enumeration (devs : Nat → Device) :
    (∀ (d : Device) (i : Nat),
      ((get_camera_info d i).1).isSome = (d.opens && d.readOk))
    ∧ (∀ c : CameraInfo, c ∈ list_video_sources devs ↔
        ∃ i, i < 10 ∧ (get_camera_info (devs i) i).1 = some c)
    ∧ (list_video_sources devs).length ≤ 10
    ∧ (list_video_sources devs).Pairwise (fun a b => a.id < b.id) := by
  refine ⟨?_, ?_, ?_, ?_⟩
  · intro d i
    cases hd : d.opens <;> cases hr : d.readOk <;>
      simp [get_camera_info, hd, hr]
  · intro c
    simp [list_video_sources, List.mem_filterMap, List.mem_range]
  · simpa [list_video_sources] using
      List.length_filterMap_le
        (fun i => (get_camera_info (devs i) i).1) (List.range 10)
  · refine List.pairwise_filterMap.mpr ?_
    refine List.Pairwise.imp ?_ (List.pairwise_lt_range 10)
    intro i j hij c hc c' hc'
    rw [get_camera_info_id hc, get_camera_info_id hc']
    exact hij

/-- C4 counterexample: at a device index where the open fails, the probe
performs the open attempt but never calls `release` before returning
(Main.py:10-11 returns `None` without `cap.release()`), so the claim that
the handle is released on every path — including the open-failure path —
is false. -/
theorem C4_counterexample :
    ProbeAction.openDev ∈ (get_camera_info closedDevice 0).2
    ∧ ProbeAction.releaseDev ∉ (get_camera_info closedDevice 0).2 := by
  decide

/-- C4 amended: the probe calls `release` exactly once before returning on
every path on which the open succeeded — both when the one-frame read
succeeds and when it fails — while on the open-failure path no `release`
call is made. -/
theorem C4_release_exactly_when_opened (d : Device) (i : Nat) :
    List.count ProbeAction.releaseDev (get_camera_info d i).2
      = (if d.opens then 1 else 0) := by
  cases hd : d.opens <;> cases hr : d.readOk <;>
    simp [get_camera_info, hd, hr]

/-- C5: on every run of `main` that reaches the serving phase, the shared
streaming capture handle is released exactly once, whatever way
`serve_forever` ends (`KeyboardInterrupt`, another exception, or a plain
return) — the release sits in the `finally` block (Main.py:267-269), which
runs before `main` returns or the exception propagates to process exit. -/
theorem C5_release_exactly_once (devs : Nat → Device) (input : Option Int)
    (e : ServeEnd)
    (h : MainAction.serveForever ∈ (mainTrace devs input e).trace) :
    List.count MainAction.releaseCapture (mainTrace devs input e).trace
      = 1 := by
  by_cases h0 : (list_video_sources devs).isEmpty
  · simp [mainTrace, h0] at h
  · by_cases h1 : (list_video_sources devs).length > 1
    · cases input with
      | none => simp [mainTrace, h0, h1] at h
      | some i =>
        cases hp : pythonGet (list_video_sources devs) i with
        | none => simp [mainTrace, h0, h1, hp] at h
        | some s => simp [mainTrace, h0, h1, hp, serveTrace]
    · cases hp : pythonGet (list_video_sources devs) 0 with
      | none => simp [mainTrace, h0, h1, hp] at h
      | some s => simp [mainTrace, h0, h1, hp, serveTrace]

/-- Witness for C5: one working camera, interrupt-driven shutdown. -/
theorem C5_witness :
    MainAction.serveForever
        ∈ (mainTrace devsOne none ServeEnd.interrupted).trace
    ∧ List.count MainAction.releaseCapture
        (mainTrace devsOne none ServeEnd.interrupted).trace = 1 :=
  ⟨by decide, C5_release_exactly_once devsOne none ServeEnd.interrupted
    (by decide)⟩

/-- C6: when enumeration yields no sources, `main` prints the report and
returns normally, its whole trace being that single print — in particular
it binds no HTTP listener and opens no streaming capture handle
(Main.py:233-235). -/
theorem C6_no_sources_no_server (devs : Nat → Device) (input : Option Int)
    (e : ServeEnd) (h : list_video_sources devs = []) :
    (mainTrace devs input e).trace
        = [MainAction.printMsg "No video sources found!"]
    ∧ (mainTrace devs input e).trace.all notServerAction = true
    ∧ (mainTrace devs input e).result = MainResult.returnedNormally := by
  refine ⟨?_, ?_, ?_⟩ <;> simp [mainTrace, h, notServerAction]

/-- Witness for C6: no working camera at any index. -/
theorem C6_witness :
    list_video_sources devsNone = []
    ∧ ((mainTrace devsNone none ServeEnd.interrupted).trace
          = [MainAction.printMsg "No video sources found!"]
       ∧ (mainTrace devsNone none ServeEnd.interrupted).trace.all
            notServerAction = true
       ∧ (mainTrace devsNone none ServeEnd.interrupted).result
          = MainResult.returnedNormally) :=
  ⟨by decide, C6_no_sources_no_server devsNone none ServeEnd.interrupted
    (by decide)⟩

/-- C7: when enumeration yields exactly one source, no selection prompt
occurs and that single source is the selected one (Main.py:241-245); and
conversely a prompt occurs only when more than one candidate exists. -/
theorem C7_single_source_no_prompt (devs : Nat → Device) (input : Option Int)
    (e : ServeEnd) :
    ((list_video_sources devs).length = 1 →
      MainAction.promptSelect ∉ (mainTrace devs input e).trace
      ∧ (mainTrace devs input e).selected = (list_video_sources devs).head?)
    ∧ (MainAction.promptSelect ∈ (mainTrace devs input e).trace →
      1 < (list_video_sources devs).length) := by
  constructor
  · intro hlen
    obtain ⟨s, hs⟩ := List.length_eq_one.mp hlen
    simp [mainTrace, hs, serveTrace, pythonGet]
  · intro hmem
    by_contra hlen
    by_cases h0 : (list_video_sources devs).isEmpty
    · simp [mainTrace, h0] at hmem
    · cases hp : pythonGet (list_video_sources devs) 0 with
      | none => simp [mainTrace, h0, hlen, hp] at hmem
      | some s => simp [mainTrace, h0, hlen, hp, serveTrace] at hmem

/-- Witness for C7: exactly one working camera, at index 0. -/
theorem C7_witness :
    (list_video_sources devsOne).length = 1
    ∧ (MainAction.promptSelect
          ∉ (mainTrace devsOne none ServeEnd.interrupted).trace
       ∧ (mainTrace devsOne none ServeEnd.interrupted).selected
          = (list_video_sources devsOne).head?) :=
  ⟨by decide,
   (C7_single_source_no_prompt devsOne none ServeEnd.interrupted).1
     (by decide)⟩

/-- Python list subscripting raises `IndexError` exactly when the integer
index lies outside Python's accepted range `-len ≤ i < len`. -/
theorem pythonGet_eq_none {α : Type} (xs : List α) (i : Int) :
    pythonGet xs i = none ↔
      i < -(xs.length : Int) ∨ (xs.length : Int) ≤ i := by
  unfold pythonGet
  by_cases h0 : (0:Int) ≤ i
  · simp [h0, List.get?_eq_none]
    omega
  · by_cases h1 : -((xs.length : Nat) : Int) ≤ i
    · simp [h0, h1, List.get?_eq_none]
      omega
    · simp [h0, h1]
      omega

/-- C8 counterexample: with two candidates the console input `-1` is not a
valid integer index into the candidate list (the menu numbers them `0`
and `1`), yet startup does not fail: Python's negative indexing on
`sources[selected_idx]` (Main.py:243) accepts it, selects the last
candidate, and the program proceeds to serve with that camera. -/
theorem C8_counterexample :
    (list_video_sources devsTwo).length = 2
    ∧ ¬((0:Int) ≤ -1 ∧ (-1:Int) < 2)
    ∧ (mainTrace devsTwo (some (-1)) ServeEnd.interrupted).selected
        = some { id := 1, name := "Camera 1", resolution := "640x480",
                 backend := "V4L2" }
    ∧ MainAction.serveForever
        ∈ (mainTrace devsTwo (some (-1)) ServeEnd.interrupted).trace
    ∧ (mainTrace devsTwo (some (-1)) ServeEnd.interrupted).result
        = MainResult.returnedNormally := by
  decide

/-- C8 amended: when more than one candidate exists, startup fails with an
unhandled fatal error exactly when the selection input is non-numeric
(`int(input(...))` raises `ValueError`) or an integer outside Python's
accepted index range `-len ≤ i < len` (`sources[i]` raises `IndexError`);
on such a failure no serving occurs and `main` crashes.  Integers in
`-len..-1`, although absent from the printed menu, are accepted by
Python's negative indexing and proceed to serve. -/
theorem C8_amended_fatal_iff_unusable_index (devs : Nat → Device)
    (input : Option Int) (e : ServeEnd)
    (h : 1 < (list_video_sources devs).length) :
    ((mainTrace devs input e).selected = none ↔
      (input = none ∨ ∃ i, input = some i ∧
        (i < -((list_video_sources devs).length : Int)
         ∨ ((list_video_sources devs).length : Int) ≤ i)))
    ∧ ((mainTrace devs input e).selected = none →
        MainAction.serveForever ∉ (mainTrace devs input e).trace
        ∧ (mainTrace devs input e).result = MainResult.crashed) := by
  have h0 : ¬(list_video_sources devs).isEmpty = true := by
    intro hempty
    rw [List.isEmpty_iff] at hempty
    rw [hempty] at h
    simp at h
  constructor
  · cases input with
    | none => simp [mainTrace, h0, h]
    | some i =>
      cases hp : pythonGet (list_video_sources devs) i with
      | none =>
        simp [mainTrace, h0, h, hp]
        exact (pythonGet_eq_none _ _).mp hp
      | some s =>
        simp [mainTrace, h0, h, hp]
        have hne : ¬(i < -((list_video_sources devs).length : Int)
            ∨ ((list_video_sources devs).length : Int) ≤ i) := by
          intro hcon
          rw [(pythonGet_eq_none _ _).mpr hcon] at hp
          exact Option.noConfusion hp
        omega
  · intro hsel
    cases input with
    | none => simp [mainTrace, h0, h]
    | some i =>
      cases hp : pythonGet (list_video_sources devs) i with
      | none => simp [mainTrace, h0, h, hp]
      | some s => simp [mainTrace, h0, h, hp] at hsel

/-- Witness for C8's amended theorem: two candidates, out-of-range
input `5`. -/
theorem C8_witness :
    1 < (list_video_sources devsTwo).length
    ∧ (((mainTrace devsTwo (some 5) ServeEnd.interrupted).selected = none ↔
        (some (5:Int) = none ∨ ∃ i, some (5:Int) = some i ∧
          (i < -((list_video_sources devsTwo).length : Int)
           ∨ ((list_video_sources devsTwo).length : Int) ≤ i)))
       ∧ ((mainTrace devsTwo (some 5) ServeEnd.interrupted).selected = none →
           MainAction.serveForever
             ∉ (mainTrace devsTwo (some 5) ServeEnd.interrupted).trace
           ∧ (mainTrace devsTwo (some 5) ServeEnd.interrupted).result
             = MainResult.crashed)) :=
  ⟨by decide, C8_amended_fatal_iff_unusable_index devsTwo (some 5)
    ServeEnd.interrupted (by decide)⟩

end IpStream
